import Mathlib

/-!
Verification of the BuyEuropean desktop API client (`src/buyeuropean/api.py`).

The client is shallowly embedded: JSON values become an inductive type,
Python dictionaries become association lists, and every network / filesystem
effect becomes an explicit input describing its outcome.  Python's dynamic
errors (TypeError, AttributeError, KeyError) on the paths the code can reach
are modelled as `Option`/`Except` failures, and the blanket
`except Exception` handlers of the source translate to the corresponding
`none`/error branches.
-/

namespace BuyEuropean

/-- JSON-like values as produced by `response.json()` in the client. -/
inductive Json where
  | null
  | bool (b : Bool)
  | num (n : Int)
  | str (s : String)
  | arr (elems : List Json)
  | obj (fields : List (String × Json))
deriving Repr

/-- Python truthiness (`if not x`, `if x`) on JSON-shaped values. -/
def Json.truthy : Json → Bool
  | .null => false
  | .bool b => b
  | .num n => n != 0
  | .str s => s != ""
  | .arr xs => !xs.isEmpty
  | .obj fs => !fs.isEmpty

/-- Python `x == "lit"` for a JSON-shaped value: only equal strings compare
equal to a string literal. -/
def Json.eqStr : Json → String → Bool
  | .str s, t => s == t
  | _, _ => false

/-- `d[k]` read on a Python dict (association list, first match). -/
def dictLookup (fs : List (String × Json)) (k : String) : Option Json :=
  match fs with
  | [] => none
  | (k', v) :: rest => if k' = k then some v else dictLookup rest k

/-- `k in d` on a Python dict. -/
def dictHasKey (fs : List (String × Json)) (k : String) : Bool :=
  (dictLookup fs k).isSome

/-- Replace the value bound to `k`, keeping its position. -/
def replaceKey : List (String × Json) → String → Json → List (String × Json)
  | [], _, _ => []
  | (k', v') :: rest, k, v =>
    if k' = k then (k, v) :: replaceKey rest k v
    else (k', v') :: replaceKey rest k v

/-- `d[k] = v` on a Python dict: replaces the value in place if the key is
present, otherwise appends the new binding (insertion order preserved). -/
def dictSet (fs : List (String × Json)) (k : String) (v : Json) : List (String × Json) :=
  if dictHasKey fs k then replaceKey fs k v else fs ++ [(k, v)]

/-- Contiguous-subsequence test: Python's `needle in haystack` on strings,
over the underlying character lists. -/
def containsSeq (needle : List Char) : List Char → Bool
  | [] => needle.isEmpty
  | c :: rest => needle.isPrefixOf (c :: rest) || containsSeq needle rest

/-- Python `key in value` for a string `key` against an arbitrary value:
key membership for dicts, element membership for lists, substring test for
strings; `none` models the TypeError raised for other types. -/
def pyContainsStr (j : Json) (key : String) : Option Bool :=
  match j with
  | .obj fs => some (dictHasKey fs key)
  | .arr xs => some (xs.any (fun x => x.eqStr key))
  | .str s => some (containsSeq key.data s.data)
  | _ => none

/-- Python `value[key]` for a string `key`: dict lookup; `none` models the
TypeError raised on non-dict values (and KeyError on a missing key). -/
def pyIndexStr (j : Json) (key : String) : Option Json :=
  match j with
  | .obj fs => dictLookup fs key
  | _ => none

/-- Python `for x in value`: lists iterate over elements, strings over
one-character strings, dicts over their keys; `none` models the TypeError
raised for non-iterable values. -/
def pyIter : Json → Option (List Json)
  | .arr xs => some xs
  | .str s => some (s.data.map (fun c => .str (String.mk [c])))
  | .obj fs => some (fs.map (fun p => .str p.1))
  | _ => none

/-- Python `str.capitalize()`: first character uppercased, the rest
lowercased. -/
def pyCapitalize (s : String) : String :=
  match s.data with
  | [] => ""
  | c :: cs => String.mk (c.toUpper :: cs.map Char.toLower)

/-- Standard base64 alphabet. -/
def base64Chars : List Char :=
  "ABCDEFGHIJKLMNOPQRSTUVWXYZabcdefghijklmnopqrstuvwxyz0123456789+/".data

/-- Sextet to base64 character. -/
def b64Char (n : Nat) : Char := base64Chars.getD n '?'

/-- `base64.b64encode(bytes).decode("utf-8")` over a byte list. -/
def b64encode : List Nat → String
  | [] => ""
  | [a] =>
      String.mk [b64Char (a / 4), b64Char (a % 4 * 16), '=', '=']
  | [a, b] =>
      String.mk [b64Char (a / 4), b64Char (a % 4 * 16 + b / 16), b64Char (b % 16 * 4), '=']
  | a :: b :: c :: rest =>
      String.mk [b64Char (a / 4), b64Char (a % 4 * 16 + b / 16),
                 b64Char (b % 16 * 4 + c / 64), b64Char (c % 64)]
        ++ b64encode rest

/-- Client state: the single mutable field set in `__init__`
(`self.last_analysis_id = None`). -/
structure ApiState where
  last_analysis_id : Json
deriving Repr

/-- A freshly constructed `BuyEuropeanAPI` instance. -/
def initState : ApiState := ⟨Json.null⟩

/-- Outcome of a `requests` call: `exn msg` models the call itself raising,
`resp status body` a response whose `.json()` either parses (`Except.ok`) or
raises (`Except.error msg`). -/
inductive PostOutcome where
  | exn (msg : String)
  | resp (status : Nat) (body : Except String Json)
deriving Repr

/-- The constant placeholder location mapping. -/
def locationPlaceholder : List (String × Json) :=
  [("city", .str "Unknown"), ("country", .str "Unknown"), ("country_code", .str "XX")]

/-- `get_location_data`: `locResp` is the parsed JSON of the ipapi.co
response, `none` when the GET or the JSON parse raises.  A non-dict body
makes `data.get` raise AttributeError, which the handler also absorbs. -/
def get_location_data (locResp : Option Json) : List (String × Json) :=
  match locResp with
  | some (.obj fs) =>
      [("city", (dictLookup fs "city").getD (.str "Unknown")),
       ("country", (dictLookup fs "country_name").getD (.str "Unknown")),
       ("country_code", (dictLookup fs "country_code").getD (.str "XX"))]
  | _ => locationPlaceholder

/-- A raised Python exception: its message and the message of its
`__cause__` (the `from e` chain). -/
structure PyError where
  msg : String
  cause : Option String
deriving Repr

/-- `image_to_base64`: `pil` is the outcome of the Pillow decode/re-encode
to JPEG bytes (error = the exception message `e`), `raw` the outcome of
reading the raw file bytes.  On a Pillow failure the raw bytes are base64
encoded unmodified; if that read also fails a ValueError is raised whose
message names the path and whose cause is the original Pillow error. -/
def image_to_base64 (image_path : String)
    (pil : Except String (List Nat)) (raw : Except String (List Nat)) :
    Except PyError String :=
  match pil with
  | .ok bytes => .ok (b64encode bytes)
  | .error e =>
    match raw with
    | .ok bytes => .ok (b64encode bytes)
    | .error _ =>
        .error ⟨"Could not process image at " ++ image_path ++ ": " ++ e, some e⟩

/-- Lines 158-160: `if "id" in result: self.last_analysis_id = result["id"]`.
`none` models a TypeError/KeyError raised by `in` or by the indexing. -/
def storeId (st : ApiState) (result : Json) : Option ApiState :=
  match pyContainsStr result "id" with
  | none => none
  | some false => some st
  | some true =>
    match pyIndexStr result "id" with
    | none => none
    | some v => some ⟨v⟩

/-- Lines 172-176, one loop iteration: capitalize a truthy `name` field,
leave entries without one unchanged; `none` models the dynamic error raised
when `alt["name"]` is not indexable or the name has no `.capitalize`. -/
def normalizeAlt (alt : Json) : Option Json :=
  match pyContainsStr alt "name" with
  | none => none
  | some false => some alt
  | some true =>
    match pyIndexStr alt "name" with
    | none => none
    | some nv =>
      if nv.truthy then
        match alt, nv with
        | .obj fs, .str s => some (.obj (dictSet fs "name" (.str (pyCapitalize s))))
        | _, _ => none
      else some alt

/-- The `for alt in ...: ... normalized_alternatives.append(alt)` loop body,
iterated: stops with `none` at the first entry that raises. -/
def normalizeLoop : List Json → Option (List Json)
  | [] => some []
  | a :: rest =>
    match normalizeAlt a with
    | none => none
    | some b => (normalizeLoop rest).map (fun bs => b :: bs)

/-- Lines 171-177: the normalization loop over `result["alternatives"]`. -/
def normalizeAlternatives (v : Json) : Option (List Json) :=
  match pyIter v with
  | none => none
  | some items => normalizeLoop items

/-- Lines 162-167: rewrite a legacy `classification` value of `"european"`
to `"european_country"`, leaving everything else alone. -/
def classifyFix (fs : List (String × Json)) : List (String × Json) :=
  if ((dictLookup fs "classification").getD .null).eqStr "european" then
    dictSet fs "classification" (.str "european_country")
  else fs

/-- Lines 156-179: processing of a parsed HTTP 200 body: store the id,
rewrite the legacy classification, normalize alternative names.  Returns the
state after the call and the value returned (`none` = the body made some
step raise, caught by the enclosing handler which returns Python `None`). -/
def processResponse (st : ApiState) (result : Json) : ApiState × Option Json :=
  match storeId st result with
  | none => (st, none)
  | some st' =>
    match result with
    | .obj fs =>
      let fs1 := classifyFix fs
      let altv := (dictLookup fs1 "alternatives").getD .null
      if dictHasKey fs1 "alternatives" && altv.truthy then
        match normalizeAlternatives altv with
        | none => (st', none)
        | some alts => (st', some (.obj (dictSet fs1 "alternatives" (.arr alts))))
      else
        (st', some (.obj fs1))
    | _ => (st', none)

/-- The environment of one `analyze_product` call: the geolocation response,
the two image-reading outcomes, and the POST outcome. -/
structure AnalyzeEnv where
  locResp : Option Json
  pil : Except String (List Nat)
  raw : Except String (List Nat)
  post : PostOutcome
deriving Repr

/-- Observable outcome of one `analyze_product` call: the state afterwards,
the payload handed to `requests.post` (`none` when the call never reached
the network), and the value returned to the caller (`none` = Python `None`). -/
structure AnalyzeOutcome where
  state : ApiState
  posted : Option Json
  result : Option Json
deriving Repr

/-- `analyze_product` (lines 132-186).  Every exception inside the `try`
block funnels to a `none` result; the function itself is total, so no
exception escapes to the caller. -/
def analyze_product (st : ApiState) (image_path : String) (env : AnalyzeEnv) :
    AnalyzeOutcome :=
  let user_location := get_location_data env.locResp
  match image_to_base64 image_path env.pil env.raw with
  | .error _ => ⟨st, none, none⟩
  | .ok image_base64 =>
    let payload : Json :=
      .obj [("image", .str image_base64), ("userLocation", .obj user_location)]
    match env.post with
    | .exn _ => ⟨st, some payload, none⟩
    | .resp status body =>
      if status = 200 then
        match body with
        | .error _ => ⟨st, some payload, none⟩
        | .ok result =>
          let out := processResponse st result
          ⟨out.1, some payload, out.2⟩
      else ⟨st, some payload, none⟩

/-- The keyword arguments of `send_feedback`. -/
structure FeedbackArgs where
  is_positive : Bool
  wrong_product : Bool := false
  wrong_brand : Bool := false
  wrong_country : Bool := false
  wrong_classification : Bool := false
  wrong_alternatives : Bool := false
  wrong_other : Bool := false
  feedback_text : String := ""
deriving Repr

/-- `{"status": "error", "message": msg}`. -/
def errorDict (msg : String) : Json :=
  .obj [("status", .str "error"), ("message", .str msg)]

/-- The locally produced error mapping of `send_feedback` (line 213). -/
def noAnalysisIdError : Json := errorDict "No analysis ID available for feedback"

/-- The feedback payload built at lines 215-225. -/
def feedbackPayload (st : ApiState) (a : FeedbackArgs) : Json :=
  .obj [("analysis_id", st.last_analysis_id),
        ("is_positive", .bool a.is_positive),
        ("wrong_product", .bool a.wrong_product),
        ("wrong_brand", .bool a.wrong_brand),
        ("wrong_country", .bool a.wrong_country),
        ("wrong_classification", .bool a.wrong_classification),
        ("wrong_alternatives", .bool a.wrong_alternatives),
        ("wrong_other", .bool a.wrong_other),
        ("feedback_text", .str a.feedback_text)]

/-- `send_feedback` (lines 188-242): returns the payload handed to
`requests.post` (`none` when the truthiness guard short-circuits before any
network activity) together with the mapping returned to the caller. -/
def send_feedback (st : ApiState) (a : FeedbackArgs) (net : PostOutcome) :
    Option Json × Json :=
  if !st.last_analysis_id.truthy then
    (none, noAnalysisIdError)
  else
    let payload := feedbackPayload st a
    match net with
    | .exn msg => (some payload, errorDict msg)
    | .resp status body =>
      if status = 200 then
        match body with
        | .ok j => (some payload, j)
        | .error msg => (some payload, errorDict msg)
      else (some payload, errorDict ("API error: " ++ toString status))

/-! ### Dictionary lemmas -/

theorem dictLookup_replaceKey (fs : List (String × Json)) (k : String) (v : Json)
    (hk : dictHasKey fs k = true) :
    dictLookup (replaceKey fs k v) k = some v := by
  induction fs with
  | nil => simp [dictHasKey, dictLookup] at hk
  | cons p rest ih =>
    obtain ⟨k', v'⟩ := p
    by_cases h : k' = k
    · subst h; simp [replaceKey, dictLookup]
    · have hr : dictHasKey rest k = true := by
        simpa [dictHasKey, dictLookup, h] using hk
      simp [replaceKey, dictLookup, h, ih hr]

theorem dictLookup_replaceKey_ne (fs : List (String × Json)) (k : String) (v : Json)
    (k' : String) (h : k' ≠ k) :
    dictLookup (replaceKey fs k v) k' = dictLookup fs k' := by
  induction fs with
  | nil => rfl
  | cons p rest ih =>
    obtain ⟨k'', v''⟩ := p
    by_cases hk : k'' = k
    · subst hk
      simp only [replaceKey, if_pos rfl, dictLookup]
      rw [if_neg (fun e : k'' = k' => h e.symm), if_neg (fun e : k'' = k' => h e.symm), ih]
    · simp only [replaceKey, if_neg hk, dictLookup]
      by_cases hk2 : k'' = k'
      · rw [if_pos hk2, if_pos hk2]
      · rw [if_neg hk2, if_neg hk2, ih]

theorem dictLookup_append_one (fs : List (String × Json)) (k : String) (v : Json)
    (h : dictLookup fs k = none) :
    dictLookup (fs ++ [(k, v)]) k = some v := by
  induction fs with
  | nil =>
    simp [dictLookup]
  | cons p rest ih =>
    obtain ⟨k', v'⟩ := p
    simp only [dictLookup] at h
    by_cases hk : k' = k
    · rw [if_pos hk] at h; cases h
    · rw [if_neg hk] at h
      simp only [List.cons_append, dictLookup]
      rw [if_neg hk]
      exact ih h

theorem dictLookup_append_one_ne (fs : List (String × Json)) (k : String) (v : Json)
    (k' : String) (h : k' ≠ k) :
    dictLookup (fs ++ [(k, v)]) k' = dictLookup fs k' := by
  induction fs with
  | nil =>
    simp only [List.nil_append, dictLookup]
    rw [if_neg (fun e : k = k' => h e.symm)]
  | cons p rest ih =>
    obtain ⟨k'', v''⟩ := p
    simp only [List.cons_append, dictLookup, List.append_eq]
    by_cases hk : k'' = k'
    · rw [if_pos hk, if_pos hk]
    · rw [if_neg hk, if_neg hk, ih]

theorem dictLookup_dictSet_self (fs : List (String × Json)) (k : String) (v : Json) :
    dictLookup (dictSet fs k v) k = some v := by
  unfold dictSet
  cases hl : dictLookup fs k with
  | some w =>
    have hk : dictHasKey fs k = true := by simp [dictHasKey, hl]
    simp only [hk, if_true]
    exact dictLookup_replaceKey fs k v hk
  | none =>
    have hk : dictHasKey fs k = false := by simp [dictHasKey, hl]
    simp only [hk, Bool.false_eq_true, if_false]
    exact dictLookup_append_one fs k v hl

theorem dictLookup_dictSet_ne (fs : List (String × Json)) (k : String) (v : Json)
    (k' : String) (h : k' ≠ k) :
    dictLookup (dictSet fs k v) k' = dictLookup fs k' := by
  unfold dictSet
  cases hk : dictHasKey fs k with
  | true => simp only [if_true]; exact dictLookup_replaceKey_ne fs k v k' h
  | false =>
    simp only [Bool.false_eq_true, if_false]
    exact dictLookup_append_one_ne fs k v k' h

theorem dictLookup_classifyFix_ne (fs : List (String × Json)) (k : String)
    (h : k ≠ "classification") :
    dictLookup (classifyFix fs) k = dictLookup fs k := by
  unfold classifyFix
  split
  · exact dictLookup_dictSet_ne fs "classification" _ k h
  · rfl

/-! ### Normalization-loop lemmas -/

theorem normalizeLoop_length :
    ∀ (xs ys : List Json), normalizeLoop xs = some ys → ys.length = xs.length := by
  intro xs
  induction xs with
  | nil => intro ys h; simp [normalizeLoop] at h; simp [← h]
  | cons a rest ih =>
    intro ys h
    simp only [normalizeLoop] at h
    cases ha : normalizeAlt a with
    | none => rw [ha] at h; cases h
    | some b =>
      rw [ha] at h
      cases hr : normalizeLoop rest with
      | none => rw [hr] at h; cases h
      | some bs =>
        rw [hr] at h
        have h' : b :: bs = ys := by simpa using h
        subst h'
        simp [ih bs hr]

theorem normalizeLoop_get :
    ∀ (xs ys : List Json), normalizeLoop xs = some ys →
      ∀ (i : Nat) (hx : i < xs.length) (hy : i < ys.length),
        normalizeAlt (xs.get ⟨i, hx⟩) = some (ys.get ⟨i, hy⟩) := by
  intro xs
  induction xs with
  | nil => intro ys h i hx; exact absurd hx (by simp)
  | cons a rest ih =>
    intro ys h i hx hy
    simp only [normalizeLoop] at h
    cases ha : normalizeAlt a with
    | none => rw [ha] at h; cases h
    | some b =>
      rw [ha] at h
      cases hr : normalizeLoop rest with
      | none => rw [hr] at h; cases h
      | some bs =>
        rw [hr] at h
        have h' : b :: bs = ys := by simpa using h
        subst h'
        cases i with
        | zero => simpa using ha
        | succ n =>
          exact ih bs hr n (Nat.lt_of_succ_lt_succ hx) (Nat.lt_of_succ_lt_succ hy)

theorem normalizeAlt_no_name (a b : Json) (h : normalizeAlt a = some b)
    (hn : pyContainsStr a "name" = some false) : b = a := by
  simp only [normalizeAlt, hn] at h
  exact (Option.some.injEq _ _ ▸ h).symm

theorem normalizeAlt_capitalizes (afs : List (String × Json)) (s : String) (b : Json)
    (h : normalizeAlt (.obj afs) = some b)
    (hn : dictLookup afs "name" = some (.str s)) (hs : s ≠ "") :
    b = .obj (dictSet afs "name" (.str (pyCapitalize s))) := by
  have ht : (Json.str s).truthy = true := by simp [Json.truthy, hs]
  simp only [normalizeAlt, pyContainsStr, pyIndexStr, dictHasKey, hn, Option.isSome_some,
    ht, if_true] at h
  exact (Option.some.injEq _ _ ▸ h).symm

theorem pyCapitalize_head (s : String) :
    (pyCapitalize s).data.head? = s.data.head?.map Char.toUpper := by
  unfold pyCapitalize
  cases h : s.data with
  | nil => simp
  | cons c cs => simp

/-! ### Substring lemma -/

theorem containsSeq_of_append (pre needle suf : List Char) :
    containsSeq needle (pre ++ (needle ++ suf)) = true := by
  induction pre with
  | nil =>
    cases needle with
    | nil =>
      cases suf with
      | nil => rfl
      | cons c rest => simp [containsSeq, List.isPrefixOf]
    | cons n ntl =>
      simp only [List.nil_append, List.cons_append, containsSeq]
      have : (n :: ntl).isPrefixOf (n :: (ntl ++ suf)) = true := by
        simp [List.isPrefixOf_iff_prefix]
      simp [this]
  | cons p rest ih => simp [containsSeq, ih]

/-! ### Structural lemmas about the response processing -/

theorem storeId_obj_of_id (st : ApiState) (fs : List (String × Json)) (v : Json)
    (h : dictLookup fs "id" = some v) :
    storeId st (.obj fs) = some ⟨v⟩ := by
  simp [storeId, pyContainsStr, pyIndexStr, dictHasKey, h]

theorem storeId_obj_no_id (st : ApiState) (fs : List (String × Json))
    (h : dictLookup fs "id" = none) :
    storeId st (.obj fs) = some st := by
  simp [storeId, pyContainsStr, dictHasKey, h]

theorem processResponse_fst_of_storeId (st : ApiState) (fs : List (String × Json))
    (st' : ApiState) (h : storeId st (.obj fs) = some st') :
    (processResponse st (.obj fs)).1 = st' := by
  unfold processResponse
  rw [h]
  dsimp only
  split
  · split <;> rfl
  · rfl

theorem processResponse_obj_result (st : ApiState) (fs : List (String × Json)) (r : Json)
    (h : (processResponse st (.obj fs)).2 = some r) :
    (r = .obj (classifyFix fs) ∧
       (dictHasKey (classifyFix fs) "alternatives" &&
         ((dictLookup (classifyFix fs) "alternatives").getD .null).truthy) = false) ∨
    (∃ alts', normalizeAlternatives ((dictLookup (classifyFix fs) "alternatives").getD .null)
        = some alts' ∧
       r = .obj (dictSet (classifyFix fs) "alternatives" (.arr alts'))) := by
  unfold processResponse at h
  cases hst : storeId st (.obj fs) with
  | none => rw [hst] at h; cases h
  | some st' =>
    rw [hst] at h
    dsimp only at h
    by_cases hc : (dictHasKey (classifyFix fs) "alternatives" &&
        ((dictLookup (classifyFix fs) "alternatives").getD .null).truthy) = true
    · rw [if_pos hc] at h
      cases hn : normalizeAlternatives ((dictLookup (classifyFix fs) "alternatives").getD .null) with
      | none => rw [hn] at h; cases h
      | some alts' =>
        rw [hn] at h
        right
        exact ⟨alts', rfl, ((Option.some.injEq _ _).mp h).symm⟩
    · rw [if_neg hc] at h
      left
      exact ⟨((Option.some.injEq _ _).mp h).symm, Bool.not_eq_true _ ▸ Bool.of_not_eq_true hc⟩

theorem processResponse_fst_cases (st : ApiState) (j : Json) :
    (processResponse st j).1 = st ∨
    (∃ fs v, j = .obj fs ∧ dictLookup fs "id" = some v ∧ (processResponse st j).1 = ⟨v⟩) := by
  cases j with
  | obj fs =>
    cases hid : dictLookup fs "id" with
    | none => exact Or.inl (processResponse_fst_of_storeId st fs st (storeId_obj_no_id st fs hid))
    | some v =>
      exact Or.inr ⟨fs, v, rfl, hid,
        processResponse_fst_of_storeId st fs ⟨v⟩ (storeId_obj_of_id st fs v hid)⟩
  | null => exact Or.inl rfl
  | bool b => exact Or.inl rfl
  | num n => exact Or.inl rfl
  | str s =>
    left
    simp only [processResponse, storeId, pyContainsStr]
    cases containsSeq "id".data s.data <;> rfl
  | arr xs =>
    left
    simp only [processResponse, storeId, pyContainsStr]
    cases xs.any (fun x => x.eqStr "id") <;> rfl

theorem send_feedback_posts (st : ApiState) (a : FeedbackArgs) (net : PostOutcome)
    (h : st.last_analysis_id.truthy = true) :
    (send_feedback st a net).1 = some (feedbackPayload st a) := by
  simp only [send_feedback, h, Bool.not_true, Bool.false_eq_true, if_false]
  cases net with
  | exn m => rfl
  | resp status body =>
    by_cases hs : status = 200
    · subst hs
      cases body <;> simp
    · simp [hs]

/-! ### Claim theorems -/

/-- C8: when the geolocation lookup raises (no parsed body) or its body is
not a JSON object, `get_location_data` returns exactly the placeholder
mapping `{city: "Unknown", country: "Unknown", country_code: "XX"}`; on an
object body each of the three fields that is missing is individually
replaced by its placeholder while present fields are passed through.  The
function is total, so the exception never propagates. -/
theorem get_location_data_spec :
    (get_location_data none = locationPlaceholder) ∧
    (∀ j : Json, (∀ fs, j ≠ .obj fs) → get_location_data (some j) = locationPlaceholder) ∧
    (∀ fs, dictLookup fs "city" = none →
        dictLookup (get_location_data (some (.obj fs))) "city" = some (.str "Unknown")) ∧
    (∀ fs v, dictLookup fs "city" = some v →
        dictLookup (get_location_data (some (.obj fs))) "city" = some v) ∧
    (∀ fs, dictLookup fs "country_name" = none →
        dictLookup (get_location_data (some (.obj fs))) "country" = some (.str "Unknown")) ∧
    (∀ fs v, dictLookup fs "country_name" = some v →
        dictLookup (get_location_data (some (.obj fs))) "country" = some v) ∧
    (∀ fs, dictLookup fs "country_code" = none →
        dictLookup (get_location_data (some (.obj fs))) "country_code" = some (.str "XX")) ∧
    (∀ fs v, dictLookup fs "country_code" = some v →
        dictLookup (get_location_data (some (.obj fs))) "country_code" = some v) := by
  refine ⟨rfl, ?_, ?_, ?_, ?_, ?_, ?_, ?_⟩
  · intro j hj
    cases j with
    | obj fs => exact absurd rfl (hj fs)
    | null => rfl
    | bool b => rfl
    | num n => rfl
    | str s => rfl
    | arr xs => rfl
  · intro fs h; simp [get_location_data, dictLookup, h]
  · intro fs v h; simp [get_location_data, dictLookup, h]
  · intro fs h; simp [get_location_data, dictLookup, h]
  · intro fs v h; simp [get_location_data, dictLookup, h]
  · intro fs h; simp [get_location_data, dictLookup, h]
  · intro fs v h; simp [get_location_data, dictLookup, h]

/-- Witness for C8 at concrete inputs: a body carrying only `country_code`
yields the `city` placeholder and passes `country_code` through, and a
non-object body yields the full placeholder. -/
theorem get_location_data_spec_witness :
    dictLookup (get_location_data (some (.obj [("country_code", .str "DE")]))) "city"
      = some (.str "Unknown") ∧
    dictLookup (get_location_data (some (.obj [("country_code", .str "DE")]))) "country_code"
      = some (.str "DE") ∧
    get_location_data (some (.num 7)) = locationPlaceholder :=
  ⟨get_location_data_spec.2.2.1 _ rfl,
   get_location_data_spec.2.2.2.2.2.2.2 _ _ rfl,
   get_location_data_spec.2.1 _ (fun _ h => Json.noConfusion h)⟩

/-- C7: if the Pillow decode/re-encode fails, `image_to_base64` falls back
to the base64 of the raw file bytes unmodified; if reading the raw bytes
also fails, it raises a `ValueError` whose message contains the failing path
and whose cause chain is the original decoding error.  `analyze_product`
absorbs even that hard failure (result `None`, no network call), so in the
model no public operation other than `image_to_base64` can raise. -/
theorem image_to_base64_fallback (path e e2 : String) (bytes : List Nat) :
    (image_to_base64 path (.error e) (.ok bytes) = .ok (b64encode bytes)) ∧
    (∀ err, image_to_base64 path (.error e) (.error e2) = .error err →
        containsSeq path.data err.msg.data = true ∧ err.cause = some e) ∧
    (∀ (st : ApiState) (env : AnalyzeEnv), env.pil = .error e → env.raw = .error e2 →
        (analyze_product st path env).result = none ∧
        (analyze_product st path env).posted = none) := by
  refine ⟨rfl, ?_, ?_⟩
  · intro err herr
    have hv : err = ⟨"Could not process image at " ++ path ++ ": " ++ e, some e⟩ := by
      simpa [image_to_base64] using herr.symm
    subst hv
    refine ⟨?_, rfl⟩
    have hdata : ("Could not process image at " ++ path ++ ": " ++ e).data
        = "Could not process image at ".data ++ (path.data ++ (": ".data ++ e.data)) := by
      simp [String.data_append, List.append_assoc]
    rw [hdata]
    exact containsSeq_of_append _ _ _
  · intro st env hpil hraw
    constructor <;> simp [analyze_product, image_to_base64, hpil, hraw]

/-- Witness for C7 at concrete inputs: raw-bytes fallback is the plain
base64 of the bytes, and the double-failure message contains the path. -/
theorem image_to_base64_fallback_witness :
    image_to_base64 "photo.png" (.error "bad jpeg") (.ok [77, 97, 110])
      = .ok (b64encode [77, 97, 110]) ∧
    containsSeq "photo.png".data
      ("Could not process image at " ++ "photo.png" ++ ": " ++ "bad jpeg").data = true :=
  ⟨(image_to_base64_fallback "photo.png" "bad jpeg" "unused" [77, 97, 110]).1,
   ((image_to_base64_fallback "photo.png" "bad jpeg" "io fail" []).2.1 _ rfl).1⟩

/-- C4: `analyze_product` returns `None` whenever the POST raises, the
status is not 200, the 200 body fails to parse, a parsed body makes the
response processing raise, or the image loading raises its hard failure.
The function is total (no exception reaches the caller), and every failure
kind yields the same value `none`, so callers cannot distinguish them. -/
theorem analyze_failure_returns_none (st : ApiState) (path : String) (env : AnalyzeEnv)
    (h : (∃ m, env.post = .exn m)
       ∨ (∃ s b, env.post = .resp s b ∧ s ≠ 200)
       ∨ (∃ m, env.post = .resp 200 (.error m))
       ∨ (∃ j, env.post = .resp 200 (.ok j) ∧ (processResponse st j).2 = none)
       ∨ (∃ err, image_to_base64 path env.pil env.raw = .error err)) :
    (analyze_product st path env).result = none := by
  cases himg : image_to_base64 path env.pil env.raw with
  | error err => simp [analyze_product, himg]
  | ok img =>
    rcases h with ⟨m, hp⟩ | ⟨s, b, hp, hs⟩ | ⟨m, hp⟩ | ⟨j, hp, hj⟩ | ⟨err, herr⟩
    · simp [analyze_product, himg, hp]
    · simp [analyze_product, himg, hp, hs]
    · simp [analyze_product, himg, hp]
    · simp [analyze_product, himg, hp, hj]
    · rw [himg] at herr; cases herr

/-- Witness for C4 at a concrete input: a mocked HTTP 500 response makes
`analyze_product` return `None`. -/
theorem analyze_failure_returns_none_witness :
    (analyze_product initState "err.png"
        ⟨none, .ok [1], .ok [1], .resp 500 (.ok (.obj []))⟩).result = none :=
  analyze_failure_returns_none _ _ _
    (Or.inr (Or.inl ⟨500, .ok (.obj []), rfl, by decide⟩))

/-- C9: whenever `analyze_product` reaches the network, the posted JSON body
is exactly `{"image": <base64 of the image>, "userLocation": <location>}`
with the values produced by `image_to_base64` and `get_location_data`, and
no other keys. -/
theorem analyze_payload_exact (st : ApiState) (path : String) (env : AnalyzeEnv) (p : Json)
    (hp : (analyze_product st path env).posted = some p) :
    ∃ img64, image_to_base64 path env.pil env.raw = .ok img64 ∧
      p = .obj [("image", .str img64),
                ("userLocation", .obj (get_location_data env.locResp))] := by
  cases himg : image_to_base64 path env.pil env.raw with
  | error err => simp [analyze_product, himg] at hp
  | ok img =>
    refine ⟨img, rfl, ?_⟩
    cases hpost : env.post with
    | exn m =>
      have := hp
      simp [analyze_product, himg, hpost] at this
      exact this.symm
    | resp s b =>
      by_cases hs : s = 200
      · subst hs
        cases b with
        | error m =>
          have := hp
          simp [analyze_product, himg, hpost] at this
          exact this.symm
        | ok j =>
          have := hp
          simp [analyze_product, himg, hpost] at this
          exact this.symm
      · have := hp
        simp [analyze_product, himg, hpost, hs] at this
        exact this.symm

/-- Witness for C9 at a concrete input: the posted payload of a concrete
call is the two-key object built from the encoded image and the location. -/
theorem analyze_payload_exact_witness :
    ∃ img64, image_to_base64 "w.jpg" (.ok [77, 97]) (.ok [77, 97]) = .ok img64 ∧
      Json.obj [("image", Json.str (b64encode [77, 97])),
                ("userLocation", Json.obj (get_location_data none))]
        = .obj [("image", .str img64),
                ("userLocation", .obj (get_location_data none))] :=
  analyze_payload_exact initState "w.jpg" ⟨none, .ok [77, 97], .ok [77, 97], .exn "reset"⟩
    (.obj [("image", Json.str (b64encode [77, 97])),
           ("userLocation", Json.obj (get_location_data none))]) rfl

/-- C6 counterexample: a 200 body with `classification: "european_sceptic"`
and an alternatives entry named `"brand a"` is returned with the
classification unchanged but with the `alternatives` field modified
(the name is capitalized), so not every non-classification field is
returned unmodified. -/
theorem classification_fields_counterexample :
    (analyze_product initState "box.png"
        ⟨none, .ok [3], .ok [3],
         .resp 200 (.ok (.obj
           [("classification", .str "european_sceptic"),
            ("alternatives", .arr [.obj [("name", .str "brand a")]])]))⟩).result
      = some (.obj
          [("classification", .str "european_sceptic"),
           ("alternatives", .arr [.obj [("name", .str "Brand a")]])]) ∧
    Json.arr [.obj [("name", .str "Brand a")]] ≠ Json.arr [.obj [("name", .str "brand a")]] :=
  ⟨rfl, by simp⟩

/-- C6 amended: on a 200 object body that yields a result, the returned
`classification` is `"european_country"` when the body said `"european"`
and is the body's value otherwise, and every field other than
`classification` and `alternatives` is returned unmodified. -/
theorem analyze_classification_mapping (st : ApiState) (path : String) (env : AnalyzeEnv)
    (fs : List (String × Json)) (r : Json)
    (hpost : env.post = .resp 200 (.ok (.obj fs)))
    (hres : (analyze_product st path env).result = some r) :
    ∃ rfs, r = .obj rfs ∧
      dictLookup rfs "classification" =
        (if ((dictLookup fs "classification").getD .null).eqStr "european"
         then some (.str "european_country") else dictLookup fs "classification") ∧
      (∀ k, k ≠ "classification" → k ≠ "alternatives" →
          dictLookup rfs k = dictLookup fs k) := by
  cases himg : image_to_base64 path env.pil env.raw with
  | error err => simp [analyze_product, himg] at hres
  | ok img =>
    have hproc : (processResponse st (.obj fs)).2 = some r := by
      simpa [analyze_product, himg, hpost] using hres
    have hcls : dictLookup (classifyFix fs) "classification" =
        (if ((dictLookup fs "classification").getD .null).eqStr "european"
         then some (.str "european_country") else dictLookup fs "classification") := by
      by_cases hc : ((dictLookup fs "classification").getD .null).eqStr "european" = true
      · rw [if_pos hc]
        unfold classifyFix
        rw [if_pos hc]
        exact dictLookup_dictSet_self fs "classification" _
      · rw [if_neg hc]
        unfold classifyFix
        rw [if_neg hc]
    rcases processResponse_obj_result st fs r hproc with ⟨hr, hcond⟩ | ⟨alts', hnorm, hr⟩
    · subst hr
      exact ⟨classifyFix fs, rfl, hcls,
        fun k h1 _ => dictLookup_classifyFix_ne fs k h1⟩
    · subst hr
      refine ⟨dictSet (classifyFix fs) "alternatives" (.arr alts'), rfl, ?_, ?_⟩
      · rw [dictLookup_dictSet_ne _ _ _ _ (by decide)]
        exact hcls
      · intro k h1 h2
        rw [dictLookup_dictSet_ne _ _ _ _ h2]
        exact dictLookup_classifyFix_ne fs k h1

/-- Witness for C6 (amended) at a concrete input: a legacy
`classification: "european"` body comes back as `"european_country"`. -/
theorem analyze_classification_mapping_witness :
    ∃ rfs, (Json.obj [("classification", Json.str "european_country")] = Json.obj rfs) ∧
      dictLookup rfs "classification" =
        (if ((dictLookup [("classification", Json.str "european")] "classification").getD
              .null).eqStr "european"
         then some (.str "european_country")
         else dictLookup [("classification", Json.str "european")] "classification") ∧
      (∀ k, k ≠ "classification" → k ≠ "alternatives" →
          dictLookup rfs k = dictLookup [("classification", Json.str "european")] k) :=
  analyze_classification_mapping initState "t.png"
    ⟨none, .ok [5], .ok [5], .resp 200 (.ok (.obj [("classification", .str "european")]))⟩
    [("classification", .str "european")] _ rfl rfl

/-- C3 counterexample: a call whose 200 body is
`{"id": 7, "alternatives": 5}` stores the id and then fails in the
normalization loop (`5` is not iterable), so it returns `None` yet the
stored `last_analysis_id` changed from its prior value. -/
theorem last_id_overwritten_by_failed_call :
    (analyze_product initState "scan.png"
        ⟨none, .ok [9], .ok [9],
         .resp 200 (.ok (.obj [("id", .num 7), ("alternatives", .num 5)]))⟩).result = none ∧
    (analyze_product initState "scan.png"
        ⟨none, .ok [9], .ok [9],
         .resp 200 (.ok (.obj [("id", .num 7), ("alternatives", .num 5)]))⟩).state.last_analysis_id
      = .num 7 ∧
    initState.last_analysis_id ≠ .num 7 :=
  ⟨rfl, rfl, by simp [initState]⟩

/-- C3 amended: `last_analysis_id` is never explicitly reset: after any
`analyze_product` call the state is either unchanged or equal to the `id`
value of a 200 object body containing an `"id"` key — in particular every
failure occurring before the id is stored (image failure, network failure,
non-200 status, unparseable or id-less body) leaves it untouched, but a
call that stores an id may still fail afterwards and return `None`. -/
theorem last_id_lifecycle (st : ApiState) (path : String) (env : AnalyzeEnv) :
    (analyze_product st path env).state = st ∨
    ∃ fs v, env.post = .resp 200 (.ok (.obj fs)) ∧ dictLookup fs "id" = some v ∧
      (analyze_product st path env).state = ⟨v⟩ := by
  cases himg : image_to_base64 path env.pil env.raw with
  | error err => left; simp [analyze_product, himg]
  | ok img =>
    cases hpost : env.post with
    | exn m => left; simp [analyze_product, himg, hpost]
    | resp s b =>
      by_cases hs : s = 200
      · subst hs
        cases b with
        | error m => left; simp [analyze_product, himg, hpost]
        | ok j =>
          have hst : (analyze_product st path env).state = (processResponse st j).1 := by
            simp [analyze_product, himg, hpost]
          rcases processResponse_fst_cases st j with hj | ⟨fs, v, hjeq, hid, hfst⟩
          · left; rw [hst, hj]
          · right; exact ⟨fs, v, by rw [hjeq], hid, by rw [hst, hfst]⟩
      · left; simp [analyze_product, himg, hpost, hs]

/-- C2 counterexample: on a client instance with no successful
`analyze_product` call at all — the only call stored id `9` and then failed,
returning `None` — `send_feedback` nevertheless performs a network call,
posting that id. -/
theorem feedback_network_call_without_success :
    (analyze_product initState "cart.png"
        ⟨none, .ok [2], .ok [2],
         .resp 200 (.ok (.obj [("id", .num 9), ("alternatives", .bool true)]))⟩).result
      = none ∧
    (send_feedback
        (analyze_product initState "cart.png"
          ⟨none, .ok [2], .ok [2],
           .resp 200 (.ok (.obj [("id", .num 9), ("alternatives", .bool true)]))⟩).state
        ⟨true, false, false, false, false, false, false, "wrong"⟩
        (.resp 200 (.ok (.obj [("status", .str "ok")])))).1
      = some (.obj [("analysis_id", .num 9), ("is_positive", .bool true),
          ("wrong_product", .bool false), ("wrong_brand", .bool false),
          ("wrong_country", .bool false), ("wrong_classification", .bool false),
          ("wrong_alternatives", .bool false), ("wrong_other", .bool false),
          ("feedback_text", .str "wrong")]) :=
  ⟨rfl, rfl⟩

/-- C2 amended: on any client whose `last_analysis_id` is still its initial
`None` — in particular a fresh instance, or one on which no call has stored
an id — `send_feedback` returns exactly the local error mapping and makes
no network call. -/
theorem feedback_requires_stored_id (st : ApiState) (a : FeedbackArgs) (net : PostOutcome)
    (h : st.last_analysis_id = .null) :
    send_feedback st a net = (none, noAnalysisIdError) := by
  simp [send_feedback, h, Json.truthy]

/-- Witness for C2 (amended) at a concrete input: the fresh client. -/
theorem feedback_requires_stored_id_witness :
    send_feedback initState ⟨true, false, false, false, false, false, false, ""⟩ (.exn "down")
      = (none, noAnalysisIdError) :=
  feedback_requires_stored_id _ _ _ rfl

/-- C10: whenever the stored `last_analysis_id` is falsy under Python
truthiness (such as the integer `0` or the empty string stored by a prior
successful analysis), `send_feedback` returns the local error mapping and
performs no network call. -/
theorem feedback_falsy_id_local_error (st : ApiState) (a : FeedbackArgs) (net : PostOutcome)
    (h : st.last_analysis_id.truthy = false) :
    send_feedback st a net = (none, noAnalysisIdError) := by
  simp [send_feedback, h]

/-- Witness for C10 at a concrete input: a successful analysis stores the
falsy id `0`, after which `send_feedback` errors locally. -/
theorem feedback_falsy_id_local_error_witness :
    (analyze_product initState "pic.jpg"
        ⟨none, .ok [1], .ok [1], .resp 200 (.ok (.obj [("id", .num 0)]))⟩).result
      = some (.obj [("id", .num 0)]) ∧
    send_feedback
        (analyze_product initState "pic.jpg"
          ⟨none, .ok [1], .ok [1], .resp 200 (.ok (.obj [("id", .num 0)]))⟩).state
        ⟨false, true, false, false, false, false, false, "x"⟩ (.exn "never")
      = (none, noAnalysisIdError) :=
  ⟨rfl, feedback_falsy_id_local_error _ _ _ rfl⟩

/-- C1 counterexample: a successful `analyze_product` call whose 200 body
contains `"id": ""` stores that id, yet a subsequent `send_feedback` call
produces no outgoing payload at all (the falsy id trips the local guard),
so the id is not included as `analysis_id` in any outgoing payload. -/
theorem analysis_id_not_forwarded_counterexample :
    (analyze_product initState "tag.png"
        ⟨none, .ok [4], .ok [4], .resp 200 (.ok (.obj [("id", .str "")]))⟩).result
      = some (.obj [("id", .str "")]) ∧
    (send_feedback
        (analyze_product initState "tag.png"
          ⟨none, .ok [4], .ok [4], .resp 200 (.ok (.obj [("id", .str "")]))⟩).state
        ⟨true, false, false, false, false, false, false, ""⟩
        (.resp 200 (.ok (.obj [("status", .str "ok")])))).1 = none :=
  ⟨rfl, rfl⟩

/-- C1 amended: after a successful `analyze_product` call whose 200 body
contains a truthy `"id"` value, every subsequent `send_feedback` call (any
arguments, any network outcome) posts a payload whose `analysis_id` field
is exactly that id. -/
theorem analysis_id_forwarded (st : ApiState) (path : String) (env : AnalyzeEnv)
    (fs : List (String × Json)) (v : Json) (a : FeedbackArgs) (net : PostOutcome)
    (hpost : env.post = .resp 200 (.ok (.obj fs)))
    (hid : dictLookup fs "id" = some v)
    (hv : v.truthy = true)
    (hres : (analyze_product st path env).result.isSome = true) :
    (send_feedback (analyze_product st path env).state a net).1
      = some (feedbackPayload ⟨v⟩ a) ∧
    ∃ pfs, feedbackPayload ⟨v⟩ a = .obj pfs ∧ dictLookup pfs "analysis_id" = some v := by
  cases himg : image_to_base64 path env.pil env.raw with
  | error err => simp [analyze_product, himg] at hres
  | ok img =>
    have hst : (analyze_product st path env).state = ⟨v⟩ := by
      have h1 : (analyze_product st path env).state = (processResponse st (.obj fs)).1 := by
        simp [analyze_product, himg, hpost]
      rw [h1, processResponse_fst_of_storeId st fs ⟨v⟩ (storeId_obj_of_id st fs v hid)]
    rw [hst]
    refine ⟨send_feedback_posts _ _ _ hv, _, rfl, ?_⟩
    simp [feedbackPayload, dictLookup]

/-- Witness for C1 (amended) at a concrete input: id `42` is forwarded. -/
theorem analysis_id_forwarded_witness :
    (send_feedback
        (analyze_product initState "w.png"
          ⟨none, .ok [8], .ok [8], .resp 200 (.ok (.obj [("id", .num 42)]))⟩).state
        ⟨true, false, false, false, false, false, false, "ok"⟩ (.exn "later")).1
      = some (feedbackPayload ⟨.num 42⟩ ⟨true, false, false, false, false, false, false, "ok"⟩) ∧
    ∃ pfs, feedbackPayload ⟨.num 42⟩ ⟨true, false, false, false, false, false, false, "ok"⟩
        = .obj pfs ∧ dictLookup pfs "analysis_id" = some (.num 42) :=
  analysis_id_forwarded initState "w.png"
    ⟨none, .ok [8], .ok [8], .resp 200 (.ok (.obj [("id", .num 42)]))⟩
    [("id", .num 42)] (.num 42)
    ⟨true, false, false, false, false, false, false, "ok"⟩ (.exn "later")
    rfl rfl rfl rfl

/-- C5: on a 200 object body whose `alternatives` is an array, if the call
returns a mapping then its `alternatives` array has the same length and,
entry by entry: an entry without a `"name"` member is returned unchanged,
and an object entry with a non-empty string name `s` is returned with its
name replaced by `s.capitalize()`, whose first character is the uppercased
first character of `s`. -/
theorem analyze_alternatives_capitalized (st : ApiState) (path : String) (env : AnalyzeEnv)
    (fs : List (String × Json)) (alts : List Json) (r : Json)
    (hpost : env.post = .resp 200 (.ok (.obj fs)))
    (halts : dictLookup fs "alternatives" = some (.arr alts))
    (hres : (analyze_product st path env).result = some r) :
    ∃ rfs alts', r = .obj rfs ∧
      dictLookup rfs "alternatives" = some (.arr alts') ∧
      alts'.length = alts.length ∧
      ∀ (i : Nat) (hx : i < alts.length) (hy : i < alts'.length),
        (pyContainsStr (alts.get ⟨i, hx⟩) "name" = some false →
            alts'.get ⟨i, hy⟩ = alts.get ⟨i, hx⟩) ∧
        (∀ afs s, alts.get ⟨i, hx⟩ = .obj afs →
            dictLookup afs "name" = some (.str s) → s ≠ "" →
            alts'.get ⟨i, hy⟩ = .obj (dictSet afs "name" (.str (pyCapitalize s))) ∧
            (pyCapitalize s).data.head? = s.data.head?.map Char.toUpper) := by
  cases himg : image_to_base64 path env.pil env.raw with
  | error err => simp [analyze_product, himg] at hres
  | ok img =>
    have hproc : (processResponse st (.obj fs)).2 = some r := by
      simpa [analyze_product, himg, hpost] using hres
    have halts1 : dictLookup (classifyFix fs) "alternatives" = some (.arr alts) := by
      rw [dictLookup_classifyFix_ne fs _ (by decide)]
      exact halts
    rcases processResponse_obj_result st fs r hproc with ⟨hr, hcond⟩ | ⟨alts', hnorm, hr⟩
    · have hkey : dictHasKey (classifyFix fs) "alternatives" = true := by
        simp [dictHasKey, halts1]
      have htr : ((dictLookup (classifyFix fs) "alternatives").getD .null).truthy = false := by
        rw [hkey] at hcond
        simpa using hcond
      rw [halts1] at htr
      have hempty : alts = [] := by
        cases alts with
        | nil => rfl
        | cons a tl => simp [Json.truthy] at htr
      subst hempty
      subst hr
      exact ⟨classifyFix fs, [], rfl, halts1, rfl, fun i hx _ => absurd hx (Nat.not_lt_zero i)⟩
    · rw [halts1] at hnorm
      simp only [Option.getD_some] at hnorm
      have hloop : normalizeLoop alts = some alts' := by
        simpa [normalizeAlternatives, pyIter] using hnorm
      subst hr
      refine ⟨_, alts', rfl, dictLookup_dictSet_self _ _ _,
        normalizeLoop_length alts alts' hloop, ?_⟩
      intro i hx hy
      have hi := normalizeLoop_get alts alts' hloop i hx hy
      constructor
      · intro hn
        exact normalizeAlt_no_name _ _ hi hn
      · intro afs s hobj hname hs
        refine ⟨?_, pyCapitalize_head s⟩
        rw [hobj] at hi
        exact normalizeAlt_capitalizes afs s _ hi hname hs

/-- Sample alternatives list used by the C5 witness. -/
def sampleAlts : List Json :=
  [.obj [("name", .str "dell xps")], .obj [("info", .str "x")]]

/-- Sample 200 body used by the C5 witness. -/
def sampleBody : List (String × Json) := [("alternatives", .arr sampleAlts)]

/-- Witness for C5 at a concrete input: `"dell xps"` comes back as
`"Dell xps"` and the nameless entry is unchanged. -/
theorem analyze_alternatives_capitalized_witness :
    ∃ rfs alts',
      Json.obj [("alternatives", Json.arr
          [Json.obj [("name", Json.str "Dell xps")], Json.obj [("info", Json.str "x")]])]
        = .obj rfs ∧
      dictLookup rfs "alternatives" = some (.arr alts') ∧
      alts'.length = sampleAlts.length ∧
      ∀ (i : Nat) (hx : i < sampleAlts.length) (hy : i < alts'.length),
        (pyContainsStr (sampleAlts.get ⟨i, hx⟩) "name" = some false →
            alts'.get ⟨i, hy⟩ = sampleAlts.get ⟨i, hx⟩) ∧
        (∀ afs s, sampleAlts.get ⟨i, hx⟩ = .obj afs →
            dictLookup afs "name" = some (.str s) → s ≠ "" →
            alts'.get ⟨i, hy⟩ = .obj (dictSet afs "name" (.str (pyCapitalize s))) ∧
            (pyCapitalize s).data.head? = s.data.head?.map Char.toUpper) :=
  analyze_alternatives_capitalized initState "alt.png"
    ⟨none, .ok [6], .ok [6], .resp 200 (.ok (.obj sampleBody))⟩
    sampleBody sampleAlts _ rfl rfl rfl

end BuyEuropean
